import Mathlib

/-!
# PharmGuard risk-scoring engine: shallow embedding and verification

This file embeds the risk-scoring core of the PharmGuard repository
(`src/algorithms/{daily_sales,high_value_products,product_mix,weekly_trends,ml_anomaly,master}.py`)
into Lean 4 and proves (or refutes) the frozen specification claims about it.

Modelling conventions:
* Calendar dates (`datetime.date`) are embedded as integers counting days,
  with day `0` chosen to be a Monday, so `weekday d = d % 7` matches Python's
  `date.weekday()` (0 = Monday, ..., 6 = Sunday) and `timedelta` arithmetic is
  integer addition/subtraction.
* Monetary amounts and quantities are embedded as rationals (`ℚ`).  All numeric
  comparisons performed by the code are order comparisons, sums, and divisions,
  which the rationals model exactly.  The only irrational quantity the code
  produces is the sample standard deviation in `daily_sales.py`; every branch
  condition of the form `z < -c` with `z = (x - mean)/std, std = sqrt(var)`
  is expressed by the exactly equivalent rational test
  `mean - x > 0 ∧ (mean - x)^2 > c^2 * var` (squaring both positive sides),
  so the embedding stays executable.
* A pandas DataFrame of cleaned transactions is a `List Txn`.  `groupby` over
  calendar days is modelled by mapping over the deduplicated list of dates and
  filtering; all uses in the source consume the groups only through sums,
  counts and means, which are order-independent.
* The human-readable f-strings built by the detectors are modelled by the
  inductive type `Msg`, one constructor per distinct message, carrying the raw
  numeric payloads that the Python code formats into the string (number
  formatting such as `:.0f` is presentation and is not modelled).
* The Isolation-Forest model and its scaler (`ml_anomaly.py`) are external
  trained state; they are modelled as an oracle `MLModel` (a score function and
  an outlier label function on the 9-feature vector) and the persisted model
  file as an `Option MLModel` parameter.  Everything around the oracle —
  feature extraction, the ≥30-day training gate, the affine score clamping,
  the result assembly — is embedded faithfully from the source.
-/

namespace PharmGuard

/-- Calendar date as an integer day ordinal; day 0 is a Monday. -/
abbrev Date := Int

/-- Python `date.weekday()`: 0 = Monday ... 6 = Sunday. -/
def weekday (d : Date) : Int := d % 7

/-- Python `date.strftime('%A')`. -/
def dayName (d : Date) : String :=
  if weekday d = 0 then "Monday"
  else if weekday d = 1 then "Tuesday"
  else if weekday d = 2 then "Wednesday"
  else if weekday d = 3 then "Thursday"
  else if weekday d = 4 then "Friday"
  else if weekday d = 5 then "Saturday"
  else "Sunday"

/-- One cleaned transaction row (`config.DATA_SCHEMA` critical + optional
columns used by the core).  `unit_price` is meaningful only when the table's
`hasUnitPrice` flag (column presence) is true. -/
structure Txn where
  txnDate : Date
  product_name : String
  quantity : ℚ
  amount : ℚ
  unit_price : ℚ
  branch_id : Option String
deriving Repr, DecidableEq

/-- One message a detector may emit; constructors carry the numeric payloads
of the corresponding Python f-string. -/
inductive Msg where
  -- daily_sales.py
  | noTransactionsToday
  | noHistoricalData
  | limitedHistory (pastDays : ℕ)
  | salesBelowNormal (pctDrop : ℚ)
  | todayVsAverage (todaySales avgSales : ℚ)
  | twoStdDev
  | fewTransactions (todayCount : ℕ) (avgCount : ℚ)
  | lowWeekdayCount
  -- high_value_products.py
  | noHighValueProducts
  | insufficientHistoricalHV
  | hvOnlyUnits (todayQty : ℚ)
  | hvAvgVsToday (avgQty todayQty : ℚ)
  | zeroHighValueSales
  | hvValueDrop (todayValue avgValue : ℚ)
  | productsNotSold (notSold total : ℕ)
  -- product_mix.py
  | noTransactionsTodayMix
  | insufficientHistoricalMix
  | avgValueDown (pctDrop : ℚ)
  | todayVsAvgMix (todayAvg histAvg : ℚ)
  | shiftToCheaper
  | smallTransactions (small total : ℕ)
  | fewHighValueSales (highCount : ℕ)
  | normalVsTodayHighShare (histShare todayShare : ℚ)
  -- weekly_trends.py
  | noTransactionsThisWeek
  | insufficientWeeks
  | weekProjected (projected : ℚ)
  | averageWeekly (avg : ℚ)
  | onTrackBelow (pct : ℚ)
  | criticalUnderperformance
  | belowWeeklyAverage
  -- ml_anomaly.py
  | mlTrainInsufficient
  | mlModelNotTrained
  | mlNoDataForDate
  | mlFlaggedAnomalous
  | mlAnomalyScore (s : ℚ)
  | mlBasedOn
deriving Repr, DecidableEq

/-- One entry of a detector's `metrics` dict (string → number, with the one
string-valued entry `day_of_week` / `week_start` modelled by `str`). -/
inductive Metric where
  | num (key : String) (value : ℚ)
  | str (key : String) (value : String)
deriving Repr, DecidableEq

/-- The dictionary each detector returns. -/
structure DetectorResult where
  algorithm : String
  risk_score : ℤ
  alert : Bool
  messages : List Msg
  can_analyze : Bool
  metrics : List Metric
  ml_model : Option String
deriving Repr, DecidableEq

/-! ## Shared aggregation helpers (the "Windowed Aggregator") -/

/-- Sum of the `amount` column. -/
def amountSum (rows : List Txn) : ℚ := (rows.map Txn.amount).sum

/-- Sum of the `quantity` column. -/
def quantitySum (rows : List Txn) : ℚ := (rows.map Txn.quantity).sum

/-- Rows on one calendar day. -/
def rowsOn (rows : List Txn) (d : Date) : List Txn :=
  rows.filter (fun t => decide (t.txnDate = d))

/-- Distinct calendar days present in the table (pandas `.unique()` /
groupby keys; order is irrelevant to every use, which is sum/count/mean). -/
def distinctDates (rows : List Txn) : List Date :=
  (rows.map Txn.txnDate).dedup

/-- Source `pandas.Series.mean` of a list of rationals (callers guard nonempty). -/
def mean (xs : List ℚ) : ℚ := xs.sum / (xs.length : ℚ)

/-- Source `pandas.Series.std` squared: sample variance with `ddof = 1`
(callers guard length ≥ 2). -/
def sampleVar (xs : List ℚ) : ℚ :=
  ((xs.map (fun x => (x - mean xs) ^ 2)).sum) / ((xs.length : ℚ) - 1)

/-- The test `(x - m)/sqrt v < -c` for `c > 0` when `sqrt v > 0`, and `0 < -c`
(i.e. false) when `v = 0` — expressed inside ℚ by squaring the positive sides:
`m - x > 0 ∧ (m - x)^2 > c^2 * v`.  This is exactly the z-score branch
condition of `daily_sales.py` (`z_score` is 0 when the std is 0). -/
def zBelowNeg (x m v c : ℚ) : Bool :=
  decide (0 < v ∧ 0 < m - x ∧ c ^ 2 * v < (m - x) ^ 2)

/-- Python `int(q)`: truncation toward zero. -/
def truncToInt (q : ℚ) : ℤ := if 0 ≤ q then ⌊q⌋ else ⌈q⌉

/-! ## Algorithm 1: Daily Sales Anomaly (`daily_sales.py`) -/

/-- Source `daily_sales.py` lines 27–30: optional branch filter (`branch_id` is
truthy in Python iff it is a non-empty string). -/
def branchFilter (branch : Option String) (rows : List Txn) : List Txn :=
  match branch with
  | some b => if b ≠ "" then rows.filter (fun t => decide (t.branch_id = some b)) else rows
  | none => rows

/-- Source `daily_sales.py` lines 68–75: the historical window.  The code computes
`historical_end = today - 1 day` and `historical_start = historical_end - 90
days = today - 91 days`, then keeps rows with
`historical_start ≤ date ≤ historical_end`. -/
def dailyHistWindow (d : Date) (df : List Txn) : List Txn :=
  df.filter (fun t => decide (d - 91 ≤ t.txnDate ∧ t.txnDate ≤ d - 1))

/-- Source `daily_sales.py` lines 83–84: restrict the historical window to the
target date's weekday. -/
def dailySalesBaselineRows (d : Date) (df : List Txn) : List Txn :=
  (dailyHistWindow d df).filter (fun t => decide (weekday t.txnDate = weekday d))

/-- The distinct same-weekday historical days (`daily_totals` group keys). -/
def baselineDays (d : Date) (df : List Txn) : List Date :=
  distinctDates (dailySalesBaselineRows d df)

/-- Source `daily_totals['amount']`: per-day summed sales of the baseline. -/
def baselineDaySales (d : Date) (df : List Txn) : List ℚ :=
  (baselineDays d df).map (fun day => amountSum (rowsOn (dailySalesBaselineRows d df) day))

/-- Source `daily_totals['transaction_count']`: per-day row counts of the baseline. -/
def baselineDayCounts (d : Date) (df : List Txn) : List ℚ :=
  (baselineDays d df).map (fun day => ((rowsOn (dailySalesBaselineRows d df) day).length : ℚ))

/-- Source `daily_sales.py` lines 115–141: the additive risk score before the cap,
as a function of the four branch conditions. -/
def dailyRiskRaw (c1 c2 c3 c4 : Bool) : ℤ :=
  (if c1 then 30 else 0) + (if c2 then 15 else 0) +
  (if c3 then 15 else 0) + (if c4 then 10 else 0)

/-- Source `calculate_daily_sales_anomaly` (`daily_sales.py`). -/
def calculate_daily_sales_anomaly (d : Date) (rows : List Txn)
    (branch : Option String) : DetectorResult :=
  let df := branchFilter branch rows
  let today := rowsOn df d
  if today.length = 0 then
    { algorithm := "daily_sales_anomaly", risk_score := 0, alert := false
      messages := [Msg.noTransactionsToday], can_analyze := true
      metrics := [Metric.num "today_sales" 0, Metric.num "today_transactions" 0,
                  Metric.str "day_of_week" (dayName d)]
      ml_model := none }
  else
    let today_sales := amountSum today
    let today_transactions := today.length
    let baseMetrics := [Metric.num "today_sales" today_sales,
                        Metric.num "today_transactions" (today_transactions : ℚ),
                        Metric.str "day_of_week" (dayName d)]
    if (dailyHistWindow d df).length = 0 then
      { algorithm := "daily_sales_anomaly", risk_score := 0, alert := false
        messages := [Msg.noHistoricalData], can_analyze := true
        metrics := baseMetrics, ml_model := none }
    else if (baselineDays d df).length < 4 then
      { algorithm := "daily_sales_anomaly", risk_score := 0, alert := false
        messages := [Msg.limitedHistory (baselineDays d df).length], can_analyze := true
        metrics := baseMetrics, ml_model := none }
    else
      let avg_sales := mean (baselineDaySales d df)
      let var_sales := sampleVar (baselineDaySales d df)
      let avg_transactions := mean (baselineDayCounts d df)
      -- z_score < -1.5 and z_score < -2.0 (see `zBelowNeg`)
      let c1 := zBelowNeg today_sales avg_sales var_sales (3/2)
      let c2 := zBelowNeg today_sales avg_sales var_sales 2
      let c3 := decide (0 < avg_transactions ∧
                  (today_transactions : ℚ) < avg_transactions * (3/5))
      let c4 := decide (today_transactions < 50 ∧ weekday d < 5)
      { algorithm := "daily_sales_anomaly"
        risk_score := min (dailyRiskRaw c1 c2 c3 c4) 40
        alert := c1 || c3
        messages :=
          (if c1 then [Msg.salesBelowNormal ((avg_sales - today_sales) / avg_sales * 100),
                       Msg.todayVsAverage today_sales avg_sales] else []) ++
          (if c2 then [Msg.twoStdDev] else []) ++
          (if c3 then [Msg.fewTransactions today_transactions avg_transactions] else []) ++
          (if c4 then [Msg.lowWeekdayCount] else [])
        can_analyze := true
        metrics := baseMetrics ++ [Metric.num "avg_sales" avg_sales,
                                   Metric.num "avg_transactions" avg_transactions]
        ml_model := none }

/-! ## Algorithm 2: High-Value Product Tracking (`high_value_products.py`) -/

/-- Source `config.HIGH_VALUE_THRESHOLD`. -/
def HIGH_VALUE_THRESHOLD : ℚ := 50

/-- Source `high_value_products.py` lines 33–39: a product's average unit price —
the mean of the `unit_price` column when the table has one, otherwise
`sum(amount)/sum(quantity)` (0 when the quantity sum is not positive). -/
def productPrice (rows : List Txn) (hasUnitPrice : Bool) (p : String) : ℚ :=
  let g := rows.filter (fun t => decide (t.product_name = p))
  if hasUnitPrice then mean (g.map Txn.unit_price)
  else if 0 < quantitySum g then amountSum g / quantitySum g else 0

/-- Source `high_value_products.py` line 41: auto-detected high-value product list. -/
def autoDetectHighValue (rows : List Txn) (hasUnitPrice : Bool) : List String :=
  ((rows.map Txn.product_name).dedup).filter
    (fun p => decide (HIGH_VALUE_THRESHOLD ≤ productPrice rows hasUnitPrice p))

/-- Source `identify_high_value_products` (`high_value_products.py` lines 15–48).
A manual list is used only when it is truthy in Python, i.e. non-empty. -/
def identify_high_value_products (rows : List Txn) (hasUnitPrice : Bool)
    (manual : Option (List String)) : List String :=
  match manual with
  | some l => if l ≠ [] then l else autoDetectHighValue rows hasUnitPrice
  | none => autoDetectHighValue rows hasUnitPrice

/-- Source `high_value_products.py` lines 78–85: 30-day-window historical rows of
high-value products (`historical_end = today - 1`,
`historical_start = historical_end - 30 = today - 31`). -/
def hvHistWindow (d : Date) (rows : List Txn) (hvp : List String) : List Txn :=
  rows.filter (fun t =>
    decide (d - 31 ≤ t.txnDate ∧ t.txnDate ≤ d - 1 ∧ t.product_name ∈ hvp))

/-- Source `high_value_products.py` lines 87–90: today's high-value rows. -/
def hvTodayRows (d : Date) (rows : List Txn) (hvp : List String) : List Txn :=
  rows.filter (fun t => decide (t.txnDate = d ∧ t.product_name ∈ hvp))

/-- Historical mean daily quantity of the high-value subset. -/
def hvHistAvgQty (d : Date) (rows : List Txn) (hvp : List String) : ℚ :=
  let hist := hvHistWindow d rows hvp
  mean ((distinctDates hist).map (fun day => quantitySum (rowsOn hist day)))

/-- Historical mean daily value of the high-value subset. -/
def hvHistAvgValue (d : Date) (rows : List Txn) (hvp : List String) : ℚ :=
  let hist := hvHistWindow d rows hvp
  mean ((distinctDates hist).map (fun day => amountSum (rowsOn hist day)))

/-- Source `high_value_products.py` line 111: `today['quantity'].sum() if len(today) > 0 else 0`. -/
def hvTodayQty (d : Date) (rows : List Txn) (hvp : List String) : ℚ :=
  if 0 < (hvTodayRows d rows hvp).length then quantitySum (hvTodayRows d rows hvp) else 0

/-- Source `high_value_products.py` line 112: `today['amount'].sum() if len(today) > 0 else 0`. -/
def hvTodayValue (d : Date) (rows : List Txn) (hvp : List String) : ℚ :=
  if 0 < (hvTodayRows d rows hvp).length then amountSum (hvTodayRows d rows hvp) else 0

/-- Source `high_value_products.py` lines 120–127: +25 quantity-ratio penalty
condition (`qty_ratio < 0.5`, inside the `hist_avg_qty > 0` guard). -/
def hvQtyRatioCond (today_qty hist_avg_qty : ℚ) : Bool :=
  decide (0 < hist_avg_qty ∧ today_qty / hist_avg_qty < 1/2)

/-- Source `high_value_products.py` lines 129–133: +20 zero-sale penalty condition
(`today_qty == 0 and hist_avg_qty > 2`, inside the `hist_avg_qty > 0`
guard). -/
def hvZeroSaleCond (today_qty hist_avg_qty : ℚ) : Bool :=
  decide (0 < hist_avg_qty ∧ today_qty = 0 ∧ 2 < hist_avg_qty)

/-- Source `high_value_products.py` lines 136–142: +15 value-ratio penalty condition
(`value_ratio < 0.4`, inside the `hist_avg_value > 0` guard). -/
def hvValueCond (today_value hist_avg_value : ℚ) : Bool :=
  decide (0 < hist_avg_value ∧ today_value / hist_avg_value < 2/5)

/-- Source `high_value_products.py` lines 146–147: the tracked high-value products
with no sales row today. -/
def hvNotSoldToday (today : List Txn) (hvp : List String) : List String :=
  hvp.filter (fun p => decide (p ∉ today.map Txn.product_name))

/-- Source `high_value_products.py` lines 144–151: +10 unsold-share penalty
condition — guarded by `len(today) > 0`, then
`len(products_not_sold) >= len(high_value_products) * 0.7`. -/
def hvUnsoldCond (today : List Txn) (hvp : List String) : Bool :=
  decide (0 < today.length ∧
    (hvp.length : ℚ) * (7/10) ≤ ((hvNotSoldToday today hvp).length : ℚ))

/-- Source `high_value_products.py` lines 115–151: the additive risk score before the
cap, from the four branch conditions. -/
def hvRiskRaw (c1 c2 c3 c4 : Bool) : ℤ :=
  (if c1 then 25 else 0) + (if c2 then 20 else 0) +
  (if c3 then 15 else 0) + (if c4 then 10 else 0)

/-- Source `calculate_high_value_product_anomaly` (`high_value_products.py`). -/
def calculate_high_value_product_anomaly (d : Date) (rows : List Txn)
    (hasUnitPrice : Bool) (manual : Option (List String)) : DetectorResult :=
  let hvp := identify_high_value_products rows hasUnitPrice manual
  if hvp.length = 0 then
    { algorithm := "high_value_product_tracking", risk_score := 0, alert := false
      messages := [Msg.noHighValueProducts], can_analyze := false
      metrics := [], ml_model := none }
  else
    let historical := hvHistWindow d rows hvp
    let today := hvTodayRows d rows hvp
    if historical.length = 0 then
      { algorithm := "high_value_product_tracking", risk_score := 0, alert := false
        messages := [Msg.insufficientHistoricalHV], can_analyze := false
        metrics := [], ml_model := none }
    else
      let hist_avg_qty := hvHistAvgQty d rows hvp
      let hist_avg_value := hvHistAvgValue d rows hvp
      let today_qty := hvTodayQty d rows hvp
      let today_value := hvTodayValue d rows hvp
      let c1 := hvQtyRatioCond today_qty hist_avg_qty
      let c2 := hvZeroSaleCond today_qty hist_avg_qty
      let c3 := hvValueCond today_value hist_avg_value
      let c4 := hvUnsoldCond today hvp
      { algorithm := "high_value_product_tracking"
        risk_score := min (hvRiskRaw c1 c2 c3 c4) 35
        alert := c1 || c2 || c3
        messages :=
          (if c1 then [Msg.hvOnlyUnits today_qty,
                       Msg.hvAvgVsToday hist_avg_qty today_qty] else []) ++
          (if c2 then [Msg.zeroHighValueSales] else []) ++
          (if c3 then [Msg.hvValueDrop today_value hist_avg_value] else []) ++
          (if c4 then [Msg.productsNotSold (hvNotSoldToday today hvp).length hvp.length] else [])
        can_analyze := true
        metrics := [Metric.num "high_value_products_count" (hvp.length : ℚ),
                    Metric.num "today_qty" today_qty,
                    Metric.num "avg_qty" hist_avg_qty,
                    Metric.num "today_value" today_value,
                    Metric.num "avg_value" hist_avg_value]
        ml_model := none }

/-! ## Algorithm 4 (file numbering): Product Mix Analysis (`product_mix.py`) -/

/-- Source `product_mix.py` lines 27–33: 30-day window
(`[today - 31, today - 1]`, same construction as the high-value window). -/
def mixHistWindow (d : Date) (rows : List Txn) : List Txn :=
  rows.filter (fun t => decide (d - 31 ≤ t.txnDate ∧ t.txnDate ≤ d - 1))

/-- Source `product_mix.py` lines 100–102 accumulation: additive score from the three
branch conditions. -/
def mixRiskRaw (c1 c2 c3 : Bool) : ℤ :=
  (if c1 then 25 else 0) + (if c2 then 15 else 0) + (if c3 then 15 else 0)

/-- Source `calculate_product_mix_anomaly` (`product_mix.py`). -/
def calculate_product_mix_anomaly (d : Date) (rows : List Txn) : DetectorResult :=
  let historical := mixHistWindow d rows
  let today := rowsOn rows d
  if today.length = 0 then
    { algorithm := "product_mix_analysis", risk_score := 0, alert := false
      messages := [Msg.noTransactionsTodayMix], can_analyze := false
      metrics := [], ml_model := none }
  else if historical.length = 0 then
    { algorithm := "product_mix_analysis", risk_score := 0, alert := false
      messages := [Msg.insufficientHistoricalMix], can_analyze := false
      metrics := [], ml_model := none }
  else
    let hist_avg_transaction :=
      mean ((distinctDates historical).map (fun day =>
        let g := rowsOn historical day
        if 0 < g.length then amountSum g / (g.length : ℚ) else 0))
    let today_avg_transaction := mean (today.map Txn.amount)
    let c1 := decide (0 < hist_avg_transaction ∧
                today_avg_transaction / hist_avg_transaction < 3/5)
    let small := (today.filter (fun t => decide (t.amount < 10))).length
    let c2 := decide (10 ≤ today.length ∧ (today.length : ℚ) * (1/2) < (small : ℚ))
    let highCount := (today.filter (fun t => decide (50 ≤ t.amount))).length
    let histHighShare :=
      if 0 < historical.length then
        ((historical.filter (fun t => decide (50 ≤ t.amount))).length : ℚ) /
          (historical.length : ℚ)
      else 0
    let todayHighShare :=
      if 0 < today.length then (highCount : ℚ) / (today.length : ℚ) else 0
    let c3 := decide (1/10 < histHighShare ∧ todayHighShare < histHighShare * (1/2))
    { algorithm := "product_mix_analysis"
      risk_score := min (mixRiskRaw c1 c2 c3) 30
      alert := c1 || c2 || c3
      messages :=
        (if c1 then [Msg.avgValueDown ((1 - today_avg_transaction / hist_avg_transaction) * 100),
                     Msg.todayVsAvgMix today_avg_transaction hist_avg_transaction,
                     Msg.shiftToCheaper] else []) ++
        (if c2 then [Msg.smallTransactions small today.length] else []) ++
        (if c3 then [Msg.fewHighValueSales highCount,
                     Msg.normalVsTodayHighShare histHighShare todayHighShare] else [])
      can_analyze := true
      metrics := [Metric.num "today_avg_transaction" today_avg_transaction,
                  Metric.num "hist_avg_transaction" hist_avg_transaction,
                  Metric.num "small_transactions" (small : ℚ),
                  Metric.num "high_transactions" (highCount : ℚ)]
      ml_model := none }

/-! ## Algorithm 5 (file numbering): Weekly Trend Analysis (`weekly_trends.py`) -/

/-- Source `weekly_trends.py` lines 27–28: the Monday of the target date's week. -/
def weekStart (d : Date) : Date := d - weekday d

/-- Source `weekly_trends.py` lines 32–35: this week's rows so far
(Monday through the target date, inclusive). -/
def thisWeekRows (d : Date) (rows : List Txn) : List Txn :=
  rows.filter (fun t => decide (weekStart d ≤ t.txnDate ∧ t.txnDate ≤ d))

/-- Source `weekly_trends.py` lines 47–60: totals of the populated prior 4 weeks
(weeks with no rows are skipped, not counted as zero). -/
def prevWeeksData (d : Date) (rows : List Txn) : List ℚ :=
  ([1, 2, 3, 4] : List ℤ).filterMap (fun i =>
    let w := rows.filter (fun t =>
      decide (weekStart d - 7 * i ≤ t.txnDate ∧ t.txnDate ≤ weekStart d - 7 * i + 6))
    if 0 < w.length then some (amountSum w) else none)

/-- Source `weekly_trends.py` lines 85–109 accumulation: additive score from the
three branch conditions. -/
def weeklyRiskRaw (c1 c2 c3 : Bool) : ℤ :=
  (if c1 then 30 else 0) + (if c2 then 15 else 0) + (if c3 then 10 else 0)

/-- Source `calculate_weekly_trend_anomaly` (`weekly_trends.py`). -/
def calculate_weekly_trend_anomaly (d : Date) (rows : List Txn) : DetectorResult :=
  let this_week := thisWeekRows d rows
  if this_week.length = 0 then
    { algorithm := "weekly_trends", risk_score := 0, alert := false
      messages := [Msg.noTransactionsThisWeek], can_analyze := false
      metrics := [], ml_model := none }
  else if (prevWeeksData d rows).length < 3 then
    { algorithm := "weekly_trends", risk_score := 0, alert := false
      messages := [Msg.insufficientWeeks], can_analyze := false
      metrics := [], ml_model := none }
  else
    let avg_weekly_sales := mean (prevWeeksData d rows)
    let this_week_total := amountSum this_week
    let days_elapsed : ℤ := (d - weekStart d) + 1
    let projected_week_total :=
      if 0 < days_elapsed then this_week_total / (days_elapsed : ℚ) * 7 else 0
    let projected_variance :=
      (avg_weekly_sales - projected_week_total) / avg_weekly_sales * 100
    let c1 := decide (0 < avg_weekly_sales ∧ 20 < projected_variance)
    let c2 := decide (0 < avg_weekly_sales ∧ 35 < projected_variance)
    let c3 := decide (0 < avg_weekly_sales ∧
                this_week_total < avg_weekly_sales * (1/2) ∧ 4 ≤ days_elapsed)
    { algorithm := "weekly_trends"
      risk_score := min (weeklyRiskRaw c1 c2 c3) 35
      alert := c1
      messages :=
        (if c1 then [Msg.weekProjected projected_week_total,
                     Msg.averageWeekly avg_weekly_sales,
                     Msg.onTrackBelow projected_variance] else []) ++
        (if c2 then [Msg.criticalUnderperformance] else []) ++
        (if c3 then [Msg.belowWeeklyAverage] else [])
      can_analyze := true
      metrics := [Metric.num "this_week_total" this_week_total,
                  Metric.num "projected_week_total" projected_week_total,
                  Metric.num "avg_weekly_sales" avg_weekly_sales,
                  Metric.num "days_elapsed" (days_elapsed : ℚ),
                  Metric.str "week_start" (toString (weekStart d))]
      ml_model := none }

/-! ## Algorithm 6: ML-Based Anomaly Detection (`ml_anomaly.py`)

The fitted `StandardScaler` and `IsolationForest` are external trained state;
they are modelled as the oracle `MLModel` below, whose two functions take the
raw 9-feature vector (the scaler composed with the model).  The persisted
model file is the `Option MLModel` argument of `calculate_ml_anomaly`
(`none` = no readable persisted model) and `train` abstracts
`IsolationForest.fit` on the per-day feature matrix. -/

/-- A fitted scaler+model pair: continuous anomaly score (lower = more
anomalous) and the binary outlier label (`predict == -1`). -/
structure MLModel where
  score : List ℚ → ℚ
  isOutlier : List ℚ → Bool

/-- Insert into a descending-sorted list. -/
def insertDescQ (x : ℚ) : List ℚ → List ℚ
  | [] => [x]
  | y :: ys => if y ≤ x then x :: y :: ys else y :: insertDescQ x ys

/-- Sort a list of rationals in descending order. -/
def sortDescQ : List ℚ → List ℚ
  | [] => []
  | x :: xs => insertDescQ x (sortDescQ xs)

/-- Source `nlargest(min(10, len), 'amount').sum()`. -/
def top10Sum (xs : List ℚ) : ℚ := ((sortDescQ xs).take 10).sum

/-- The metric keys of the 9 features, in the order of
`feature_columns` in `ml_anomaly.py`. -/
def mlFeatureKeys : List String :=
  ["total_sales", "transaction_count", "avg_transaction_value",
   "high_value_ratio", "high_value_total", "small_transaction_ratio",
   "sales_concentration", "avg_quantity", "day_of_week"]

/-- Source `_extract_daily_features` / the `predict` feature block
(`ml_anomaly.py` lines 69–118 and 147–184): the 9-entry feature vector of one
calendar day. -/
def mlFeatureVec (d : Date) (dayRows : List Txn) : List ℚ :=
  let total_sales := amountSum dayRows
  let cnt := dayRows.length
  let highValueCount := (dayRows.filter (fun t => decide (50 ≤ t.amount))).length
  let highValueShare := if 0 < cnt then (highValueCount : ℚ) / (cnt : ℚ) else 0
  let highValueTotal := amountSum (dayRows.filter (fun t => decide (50 ≤ t.amount)))
  let smallCount := (dayRows.filter (fun t => decide (t.amount < 10))).length
  let smallShare := if 0 < cnt then (smallCount : ℚ) / (cnt : ℚ) else 0
  let concentration :=
    if 0 < total_sales then top10Sum (dayRows.map Txn.amount) / total_sales else 0
  [total_sales, (cnt : ℚ), mean (dayRows.map Txn.amount), highValueShare,
   highValueTotal, smallShare, concentration, mean (dayRows.map Txn.quantity),
   (weekday d : ℚ)]

/-- Source `ml_anomaly.py` line 196: `max(0, min(100, int((0.5 - anomaly_score) * 70)))`. -/
def mlRiskFromScore (s : ℚ) : ℤ := max 0 (min 100 (truncToInt ((1/2 - s) * 70)))

/-- Source `MLAnomalyDetector.predict` followed by the wrapper's result assembly
(`ml_anomaly.py` lines 120–204 and 258–287), given a fitted model. -/
def mlPredictResult (m : MLModel) (d : Date) (rows : List Txn) : DetectorResult :=
  let todayData := rowsOn rows d
  if todayData.length = 0 then
    { algorithm := "ml_anomaly_detection", risk_score := 0, alert := false
      messages := [Msg.mlNoDataForDate], can_analyze := false
      metrics := [], ml_model := none }
  else
    let f := mlFeatureVec d todayData
    let s := m.score f
    let isAnom := m.isOutlier f
    { algorithm := "ml_anomaly_detection"
      risk_score := min (mlRiskFromScore s) 35
      alert := isAnom
      messages :=
        if isAnom then [Msg.mlFlaggedAnomalous, Msg.mlAnomalyScore s, Msg.mlBasedOn]
        else []
      can_analyze := true
      metrics := (mlFeatureKeys.zip f).map (fun p => Metric.num p.1 p.2)
      ml_model := some "Isolation Forest (scikit-learn)" }

/-- Source `calculate_ml_anomaly` (`ml_anomaly.py` lines 232–287): when no persisted
model loads, train on all rows strictly before the target date, requiring at
least 30 distinct days. -/
def calculate_ml_anomaly (load : Option MLModel) (train : List (List ℚ) → MLModel)
    (d : Date) (rows : List Txn) : DetectorResult :=
  match load with
  | some m => mlPredictResult m d rows
  | none =>
      let historical := rows.filter (fun t => decide (t.txnDate < d))
      if (distinctDates historical).length < 30 then
        { algorithm := "ml_anomaly_detection", risk_score := 0, alert := false
          messages := [Msg.mlTrainInsufficient], can_analyze := false
          metrics := [], ml_model := none }
      else
        mlPredictResult
          (train ((distinctDates historical).map
            (fun day => mlFeatureVec day (rowsOn historical day)))) d rows

/-! ## Risk Combiner (`master.py`) -/

/-- Source `config.RISK_LEVELS` (name, inclusive min, inclusive max). -/
def RISK_LEVELS : List (String × ℤ × ℤ) :=
  [("low", 0, 39), ("medium", 40, 59), ("high", 60, 79), ("critical", 80, 100)]

/-- Source `master.py` lines 97–102: first matching band, defaulting to `'low'`. -/
def riskLevelOf (t : ℤ) : String :=
  match RISK_LEVELS.find? (fun lv => decide (lv.2.1 ≤ t ∧ t ≤ lv.2.2)) with
  | some lv => lv.1
  | none => "low"

/-- Source `master.py` lines 105–110. -/
def riskEmoji (level : String) : String :=
  if level = "low" then "🟢"
  else if level = "medium" then "🟡"
  else if level = "high" then "🟠"
  else "🔴"

/-- Source `master.py` lines 112–120. -/
def recommendedAction (level : String) : String :=
  if level = "critical" then
    "🚨 URGENT: Investigate immediately, review CCTV if available, consider suspension pending investigation"
  else if level = "high" then
    "⚠️ Investigate today, review transactions in detail, check physical inventory"
  else if level = "medium" then
    "👀 Monitor closely, check again tomorrow, prepare to investigate"
  else
    "✅ Normal operations, no immediate action needed"

/-- Source `master.py` lines 86–92 (score accumulation): the pre-cap total — the sum
of `risk_score` over the results with `can_analyze = true`. -/
def totalRiskRaw (rs : List (String × DetectorResult)) : ℤ :=
  ((rs.filter (fun p => p.2.can_analyze)).map (fun p => p.2.risk_score)).sum

/-- Source `master.py` lines 86–92 (`active_algorithms`). -/
def algorithmsRunOf (rs : List (String × DetectorResult)) : List String :=
  (rs.filter (fun p => p.2.can_analyze)).map Prod.fst

/-- Source `master.py` lines 86–92 (`all_messages`): messages of analyzable detectors
whose own `alert` flag is set, in registration order. -/
def alertMessagesOf (rs : List (String × DetectorResult)) : List Msg :=
  ((rs.filter (fun p => p.2.can_analyze && p.2.alert)).map (fun p => p.2.messages)).flatten

/-- The Combiner's output dictionary (`master.py` lines 123–133). -/
structure Assessment where
  date : Date
  total_risk_score : ℤ
  risk_level : String
  risk_emoji : String
  recommended_action : String
  alert_messages : List Msg
  algorithms_run : List String
  algorithm_results : List (String × DetectorResult)
  requires_alert : Bool
deriving Repr, DecidableEq

/-- Source `master.py` lines 40–77: the five detector runs, in registration
(dict-insertion) order. -/
def detectorResults (d : Date) (rows : List Txn) (branch : Option String)
    (hasUnitPrice : Bool) (hvp : Option (List String))
    (load : Option MLModel) (train : List (List ℚ) → MLModel) :
    List (String × DetectorResult) :=
  [("daily_sales", calculate_daily_sales_anomaly d rows branch),
   ("high_value_products", calculate_high_value_product_anomaly d rows hasUnitPrice hvp),
   ("product_mix", calculate_product_mix_anomaly d rows),
   ("weekly_trends", calculate_weekly_trend_anomaly d rows),
   ("ml_anomaly", calculate_ml_anomaly load train d rows)]

/-- Source `calculate_overall_risk` (`master.py` lines 20–138). -/
def calculate_overall_risk (d : Date) (rows : List Txn) (branch : Option String)
    (hasUnitPrice : Bool) (hvp : Option (List String))
    (load : Option MLModel) (train : List (List ℚ) → MLModel) : Assessment :=
  let results := detectorResults d rows branch hasUnitPrice hvp load train
  let total := min (totalRiskRaw results) 100
  let level := riskLevelOf total
  { date := d
    total_risk_score := total
    risk_level := level
    risk_emoji := riskEmoji level
    recommended_action := recommendedAction level
    alert_messages := alertMessagesOf results
    algorithms_run := algorithmsRunOf results
    algorithm_results := results
    requires_alert := decide (40 ≤ total) }

/-! ## Helper lemmas: per-detector score bounds and `can_analyze` structure -/

theorem dailyRiskRaw_nonneg (c1 c2 c3 c4 : Bool) : 0 ≤ dailyRiskRaw c1 c2 c3 c4 := by
  cases c1 <;> cases c2 <;> cases c3 <;> cases c4 <;> decide

theorem hvRiskRaw_nonneg (c1 c2 c3 c4 : Bool) : 0 ≤ hvRiskRaw c1 c2 c3 c4 := by
  cases c1 <;> cases c2 <;> cases c3 <;> cases c4 <;> decide

theorem mixRiskRaw_nonneg (c1 c2 c3 : Bool) : 0 ≤ mixRiskRaw c1 c2 c3 := by
  cases c1 <;> cases c2 <;> cases c3 <;> decide

theorem weeklyRiskRaw_nonneg (c1 c2 c3 : Bool) : 0 ≤ weeklyRiskRaw c1 c2 c3 := by
  cases c1 <;> cases c2 <;> cases c3 <;> decide

theorem mlRiskFromScore_nonneg (s : ℚ) : 0 ≤ mlRiskFromScore s := le_max_left 0 _

theorem daily_score_bounds (d : Date) (rows : List Txn) (branch : Option String) :
    0 ≤ (calculate_daily_sales_anomaly d rows branch).risk_score ∧
    (calculate_daily_sales_anomaly d rows branch).risk_score ≤ 40 := by
  simp only [calculate_daily_sales_anomaly]
  split_ifs <;>
    first
      | exact ⟨le_refl 0, by norm_num⟩
      | exact ⟨le_min (dailyRiskRaw_nonneg _ _ _ _) (by norm_num), min_le_right _ _⟩

theorem hv_score_bounds (d : Date) (rows : List Txn) (hasUnitPrice : Bool)
    (manual : Option (List String)) :
    0 ≤ (calculate_high_value_product_anomaly d rows hasUnitPrice manual).risk_score ∧
    (calculate_high_value_product_anomaly d rows hasUnitPrice manual).risk_score ≤ 35 := by
  simp only [calculate_high_value_product_anomaly]
  split_ifs <;>
    first
      | exact ⟨le_refl 0, by norm_num⟩
      | exact ⟨le_min (hvRiskRaw_nonneg _ _ _ _) (by norm_num), min_le_right _ _⟩

theorem mix_score_bounds (d : Date) (rows : List Txn) :
    0 ≤ (calculate_product_mix_anomaly d rows).risk_score ∧
    (calculate_product_mix_anomaly d rows).risk_score ≤ 30 := by
  simp only [calculate_product_mix_anomaly]
  split_ifs <;>
    first
      | exact ⟨le_refl 0, by norm_num⟩
      | exact ⟨le_min (mixRiskRaw_nonneg _ _ _) (by norm_num), min_le_right _ _⟩

theorem weekly_score_bounds (d : Date) (rows : List Txn) :
    0 ≤ (calculate_weekly_trend_anomaly d rows).risk_score ∧
    (calculate_weekly_trend_anomaly d rows).risk_score ≤ 35 := by
  simp only [calculate_weekly_trend_anomaly]
  split_ifs <;>
    first
      | exact ⟨le_refl 0, by norm_num⟩
      | exact ⟨le_min (weeklyRiskRaw_nonneg _ _ _) (by norm_num), min_le_right _ _⟩

theorem mlPredictResult_score_bounds (m : MLModel) (d : Date) (rows : List Txn) :
    0 ≤ (mlPredictResult m d rows).risk_score ∧
    (mlPredictResult m d rows).risk_score ≤ 35 := by
  simp only [mlPredictResult]
  split_ifs <;>
    first
      | exact ⟨le_refl 0, by norm_num⟩
      | exact ⟨le_min (mlRiskFromScore_nonneg _) (by norm_num), min_le_right _ _⟩

theorem ml_score_bounds (load : Option MLModel) (train : List (List ℚ) → MLModel)
    (d : Date) (rows : List Txn) :
    0 ≤ (calculate_ml_anomaly load train d rows).risk_score ∧
    (calculate_ml_anomaly load train d rows).risk_score ≤ 35 := by
  cases load with
  | some m => exact mlPredictResult_score_bounds m d rows
  | none =>
      simp only [calculate_ml_anomaly]
      split_ifs
      · exact ⟨le_refl 0, by norm_num⟩
      · exact mlPredictResult_score_bounds _ d rows

theorem detectorResults_score_nonneg (d : Date) (rows : List Txn)
    (branch : Option String) (hasUnitPrice : Bool) (hvp : Option (List String))
    (load : Option MLModel) (train : List (List ℚ) → MLModel) :
    ∀ p ∈ detectorResults d rows branch hasUnitPrice hvp load train,
      0 ≤ p.2.risk_score := by
  intro p hp
  simp only [detectorResults, List.mem_cons, List.not_mem_nil, or_false] at hp
  rcases hp with rfl | rfl | rfl | rfl | rfl
  · exact (daily_score_bounds d rows branch).1
  · exact (hv_score_bounds d rows hasUnitPrice hvp).1
  · exact (mix_score_bounds d rows).1
  · exact (weekly_score_bounds d rows).1
  · exact (ml_score_bounds load train d rows).1

theorem totalRiskRaw_nonneg (rs : List (String × DetectorResult))
    (h : ∀ p ∈ rs, 0 ≤ p.2.risk_score) : 0 ≤ totalRiskRaw rs := by
  unfold totalRiskRaw
  apply List.sum_nonneg
  intro x hx
  simp only [List.mem_map] at hx
  obtain ⟨p, hp, rfl⟩ := hx
  exact h p (List.mem_of_mem_filter hp)

/-! ## Claim theorems -/

/-- Claim C1. For every (target date, transaction table) pair — and every branch
filter, high-value product list, and state of the persisted outlier model —
the Combiner's Assessment satisfies `0 ≤ total_risk_score ≤ 100`, and
`requires_alert` holds exactly when `total_risk_score ≥ 40`, independently of
the individual detectors' alert flags (the code computes it directly from the
capped total). -/
theorem combiner_total_in_range_and_alert_iff (d : Date) (rows : List Txn)
    (branch : Option String) (hasUnitPrice : Bool) (hvp : Option (List String))
    (load : Option MLModel) (train : List (List ℚ) → MLModel) :
    0 ≤ (calculate_overall_risk d rows branch hasUnitPrice hvp load train).total_risk_score ∧
    (calculate_overall_risk d rows branch hasUnitPrice hvp load train).total_risk_score ≤ 100 ∧
    ((calculate_overall_risk d rows branch hasUnitPrice hvp load train).requires_alert = true ↔
      40 ≤ (calculate_overall_risk d rows branch hasUnitPrice hvp load train).total_risk_score) := by
  have htot : (calculate_overall_risk d rows branch hasUnitPrice hvp load train).total_risk_score =
      min (totalRiskRaw (detectorResults d rows branch hasUnitPrice hvp load train)) 100 := rfl
  have halert : (calculate_overall_risk d rows branch hasUnitPrice hvp load train).requires_alert =
      decide (40 ≤ min (totalRiskRaw (detectorResults d rows branch hasUnitPrice hvp load train)) 100) := rfl
  refine ⟨?_, ?_, ?_⟩
  · rw [htot]
    exact le_min (totalRiskRaw_nonneg _ (detectorResults_score_nonneg d rows branch hasUnitPrice hvp load train)) (by norm_num)
  · rw [htot]; exact min_le_right _ _
  · rw [halert, htot]
    exact decide_eq_true_iff

/-- Claim C3. Each detector's returned `risk_score` never exceeds its documented
per-detector cap — 40 for Daily Sales, 35 for High-Value Products, 30 for
Product Mix, 35 for Weekly Trends, 35 for the ML/outlier detector — on every
input (each detector takes `min` with its cap just before returning). -/
theorem detector_caps (d : Date) (rows : List Txn) (branch : Option String)
    (hasUnitPrice : Bool) (hvp : Option (List String))
    (load : Option MLModel) (train : List (List ℚ) → MLModel) :
    (calculate_daily_sales_anomaly d rows branch).risk_score ≤ 40 ∧
    (calculate_high_value_product_anomaly d rows hasUnitPrice hvp).risk_score ≤ 35 ∧
    (calculate_product_mix_anomaly d rows).risk_score ≤ 30 ∧
    (calculate_weekly_trend_anomaly d rows).risk_score ≤ 35 ∧
    (calculate_ml_anomaly load train d rows).risk_score ≤ 35 :=
  ⟨(daily_score_bounds d rows branch).2, (hv_score_bounds d rows hasUnitPrice hvp).2,
   (mix_score_bounds d rows).2, (weekly_score_bounds d rows).2,
   (ml_score_bounds load train d rows).2⟩

theorem totalRiskRaw_append (l1 l2 : List (String × DetectorResult)) :
    totalRiskRaw (l1 ++ l2) = totalRiskRaw l1 + totalRiskRaw l2 := by
  simp [totalRiskRaw, List.filter_append]

theorem totalRiskRaw_cons_false (p : String × DetectorResult)
    (l : List (String × DetectorResult)) (h : p.2.can_analyze = false) :
    totalRiskRaw (p :: l) = totalRiskRaw l := by
  simp [totalRiskRaw, List.filter_cons, h]

theorem algorithmsRunOf_append (l1 l2 : List (String × DetectorResult)) :
    algorithmsRunOf (l1 ++ l2) = algorithmsRunOf l1 ++ algorithmsRunOf l2 := by
  simp [algorithmsRunOf, List.filter_append]

theorem algorithmsRunOf_cons_false (p : String × DetectorResult)
    (l : List (String × DetectorResult)) (h : p.2.can_analyze = false) :
    algorithmsRunOf (p :: l) = algorithmsRunOf l := by
  simp [algorithmsRunOf, List.filter_cons, h]

theorem filter_can_analyze_all_false (rs : List (String × DetectorResult))
    (h : ∀ q ∈ rs, q.2.can_analyze = false) :
    rs.filter (fun p => p.2.can_analyze) = [] := by
  rw [List.filter_eq_nil_iff]
  intro a ha
  simp [h a ha]

theorem totalRiskRaw_all_false (rs : List (String × DetectorResult))
    (h : ∀ q ∈ rs, q.2.can_analyze = false) : totalRiskRaw rs = 0 := by
  simp [totalRiskRaw, filter_can_analyze_all_false rs h]

theorem algorithmsRunOf_all_false (rs : List (String × DetectorResult))
    (h : ∀ q ∈ rs, q.2.can_analyze = false) : algorithmsRunOf rs = [] := by
  simp [algorithmsRunOf, filter_can_analyze_all_false rs h]

/-- Claim C2. In the Combiner's accumulation loop (`master.py` lines 86–102),
any result with `can_analyze = false` contributes exactly 0 to the pre-cap
total and its name is absent from `algorithms_run` (stated for a result `p`
at an arbitrary position of the detector-result list); and when every result
reports `can_analyze = false`, the assessment's total is 0, the risk level is
`"low"`, and `algorithms_run` is empty. -/
theorem combiner_excludes_non_analyzable (l1 l2 : List (String × DetectorResult))
    (p : String × DetectorResult) :
    (p.2.can_analyze = false →
      totalRiskRaw (l1 ++ p :: l2) = totalRiskRaw (l1 ++ l2) ∧
      algorithmsRunOf (l1 ++ p :: l2) = algorithmsRunOf (l1 ++ l2) ∧
      ((∀ q ∈ l1 ++ l2, q.1 ≠ p.1) → p.1 ∉ algorithmsRunOf (l1 ++ p :: l2))) ∧
    ((∀ q ∈ l1 ++ p :: l2, q.2.can_analyze = false) →
      min (totalRiskRaw (l1 ++ p :: l2)) 100 = 0 ∧
      riskLevelOf (min (totalRiskRaw (l1 ++ p :: l2)) 100) = "low" ∧
      algorithmsRunOf (l1 ++ p :: l2) = []) := by
  constructor
  · intro h
    have htot : totalRiskRaw (l1 ++ p :: l2) = totalRiskRaw (l1 ++ l2) := by
      rw [totalRiskRaw_append, totalRiskRaw_cons_false p l2 h, ← totalRiskRaw_append]
    have hrun : algorithmsRunOf (l1 ++ p :: l2) = algorithmsRunOf (l1 ++ l2) := by
      rw [algorithmsRunOf_append, algorithmsRunOf_cons_false p l2 h, ← algorithmsRunOf_append]
    refine ⟨htot, hrun, ?_⟩
    intro hq hmem
    rw [hrun] at hmem
    unfold algorithmsRunOf at hmem
    simp only [List.mem_map] at hmem
    obtain ⟨q, hq1, hq2⟩ := hmem
    exact hq q (List.mem_of_mem_filter hq1) hq2
  · intro hall
    have h0 : totalRiskRaw (l1 ++ p :: l2) = 0 := totalRiskRaw_all_false _ hall
    refine ⟨by rw [h0]; decide, by rw [h0]; decide, algorithmsRunOf_all_false _ hall⟩

/-- Concrete all-non-analyzable detector results (with deliberately nonzero
`risk_score`s, which the Combiner must ignore). -/
def cexL1 : List (String × DetectorResult) :=
  [("daily_sales", ⟨"daily_sales_anomaly", 10, false, [], false, [], none⟩)]

/-- The dropped entry for the C2 witness. -/
def cexP : String × DetectorResult :=
  ("high_value_products", ⟨"high_value_product_tracking", 25, true, [], false, [], none⟩)

/-- Remaining concrete all-non-analyzable detector results. -/
def cexL2 : List (String × DetectorResult) :=
  [("product_mix", ⟨"product_mix_analysis", 30, false, [], false, [], none⟩),
   ("weekly_trends", ⟨"weekly_trends", 35, false, [], false, [], none⟩),
   ("ml_anomaly", ⟨"ml_anomaly_detection", 35, true, [], false, [], none⟩)]

/-- Witness for C2 at a concrete five-result list, discharging both
hypotheses. -/
theorem combiner_excludes_non_analyzable_witness :
    totalRiskRaw (cexL1 ++ cexP :: cexL2) = totalRiskRaw (cexL1 ++ cexL2) ∧
    "high_value_products" ∉ algorithmsRunOf (cexL1 ++ cexP :: cexL2) ∧
    min (totalRiskRaw (cexL1 ++ cexP :: cexL2)) 100 = 0 ∧
    riskLevelOf (min (totalRiskRaw (cexL1 ++ cexP :: cexL2)) 100) = "low" ∧
    algorithmsRunOf (cexL1 ++ cexP :: cexL2) = [] := by
  have h := combiner_excludes_non_analyzable cexL1 cexL2 cexP
  have h1 := h.1 (by decide)
  have h2 := h.2 (by decide)
  exact ⟨h1.1, h1.2.2 (by decide), h2.1, h2.2.1, h2.2.2⟩

theorem daily_always_can_analyze (d : Date) (rows : List Txn) (branch : Option String) :
    (calculate_daily_sales_anomaly d rows branch).can_analyze = true := by
  simp only [calculate_daily_sales_anomaly]
  split_ifs <;> rfl

theorem hv_silent_if_not_analyzable (d : Date) (rows : List Txn)
    (hasUnitPrice : Bool) (manual : Option (List String)) :
    (calculate_high_value_product_anomaly d rows hasUnitPrice manual).can_analyze = false →
    (calculate_high_value_product_anomaly d rows hasUnitPrice manual).risk_score = 0 ∧
    (calculate_high_value_product_anomaly d rows hasUnitPrice manual).alert = false := by
  simp only [calculate_high_value_product_anomaly]
  split_ifs <;> intro h <;>
    first
      | exact ⟨rfl, rfl⟩
      | exact h.elim

theorem mix_silent_if_not_analyzable (d : Date) (rows : List Txn) :
    (calculate_product_mix_anomaly d rows).can_analyze = false →
    (calculate_product_mix_anomaly d rows).risk_score = 0 ∧
    (calculate_product_mix_anomaly d rows).alert = false := by
  simp only [calculate_product_mix_anomaly]
  split_ifs <;> intro h <;>
    first
      | exact ⟨rfl, rfl⟩
      | exact h.elim

theorem weekly_silent_if_not_analyzable (d : Date) (rows : List Txn) :
    (calculate_weekly_trend_anomaly d rows).can_analyze = false →
    (calculate_weekly_trend_anomaly d rows).risk_score = 0 ∧
    (calculate_weekly_trend_anomaly d rows).alert = false := by
  simp only [calculate_weekly_trend_anomaly]
  split_ifs <;> intro h <;>
    first
      | exact ⟨rfl, rfl⟩
      | exact h.elim

theorem mlPredictResult_silent_if_not_analyzable (m : MLModel) (d : Date) (rows : List Txn) :
    (mlPredictResult m d rows).can_analyze = false →
    (mlPredictResult m d rows).risk_score = 0 ∧ (mlPredictResult m d rows).alert = false := by
  simp only [mlPredictResult]
  split_ifs <;> intro h <;>
    first
      | exact ⟨rfl, rfl⟩
      | exact h.elim

theorem ml_silent_if_not_analyzable (load : Option MLModel)
    (train : List (List ℚ) → MLModel) (d : Date) (rows : List Txn) :
    (calculate_ml_anomaly load train d rows).can_analyze = false →
    (calculate_ml_anomaly load train d rows).risk_score = 0 ∧
    (calculate_ml_anomaly load train d rows).alert = false := by
  cases load with
  | some m => exact mlPredictResult_silent_if_not_analyzable m d rows
  | none =>
      simp only [calculate_ml_anomaly]
      split_ifs <;> intro h
      · exact ⟨rfl, rfl⟩
      · exact mlPredictResult_silent_if_not_analyzable _ d rows h

/-- Claim C10. Invariant kept by every detector: a `DetectorResult` with
`can_analyze = false` also has `risk_score = 0` and `alert = false`, so a
non-analyzable detector can never contribute score or alert messages to the
Assessment (equivalently, `alert = true` or a nonzero score implies
`can_analyze = true`). -/
theorem non_analyzable_is_silent (d : Date) (rows : List Txn)
    (branch : Option String) (hasUnitPrice : Bool) (hvp : Option (List String))
    (load : Option MLModel) (train : List (List ℚ) → MLModel) :
    ∀ p ∈ detectorResults d rows branch hasUnitPrice hvp load train,
      p.2.can_analyze = false → p.2.risk_score = 0 ∧ p.2.alert = false := by
  intro p hp h
  simp only [detectorResults, List.mem_cons, List.not_mem_nil, or_false] at hp
  rcases hp with rfl | rfl | rfl | rfl | rfl
  · rw [daily_always_can_analyze d rows branch] at h
    exact Bool.noConfusion h
  · exact hv_silent_if_not_analyzable d rows hasUnitPrice hvp h
  · exact mix_silent_if_not_analyzable d rows h
  · exact weekly_silent_if_not_analyzable d rows h
  · exact ml_silent_if_not_analyzable load train d rows h

/-- A trivial concrete outlier-model oracle used by closed witness
statements. -/
def trivialModel : MLModel := ⟨fun _ => 0, fun _ => false⟩

/-- A trivial concrete training oracle used by closed witness statements. -/
def trivialTrain : List (List ℚ) → MLModel := fun _ => trivialModel

/-- Witness for C10: on an empty table the product-mix detector reports
`can_analyze = false`, and the invariant yields score 0 and no alert. -/
theorem non_analyzable_is_silent_witness :
    ("product_mix", calculate_product_mix_anomaly 0 []) ∈
      detectorResults 0 [] none false none none trivialTrain ∧
    (calculate_product_mix_anomaly 0 []).can_analyze = false ∧
    (calculate_product_mix_anomaly 0 []).risk_score = 0 ∧
    (calculate_product_mix_anomaly 0 []).alert = false := by
  have hmem : ("product_mix", calculate_product_mix_anomaly 0 []) ∈
      detectorResults 0 [] none false none none trivialTrain := by decide
  have h := non_analyzable_is_silent 0 [] none false none none trivialTrain
    ("product_mix", calculate_product_mix_anomaly 0 []) hmem (by decide)
  exact ⟨hmem, by decide, h.1, h.2⟩

/-- Claim C5. For every table with exactly zero transactions on the target date
— regardless of how much history it contains — the Daily Sales Detector
returns the valid, non-alerting early result: `can_analyze = true`,
`today_sales = 0`, `today_transactions = 0`, `risk_score = 0`,
`alert = false`. -/
theorem daily_sales_zero_transaction_day (d : Date) (rows : List Txn)
    (h : rowsOn rows d = []) :
    calculate_daily_sales_anomaly d rows none =
      { algorithm := "daily_sales_anomaly", risk_score := 0, alert := false
        messages := [Msg.noTransactionsToday], can_analyze := true
        metrics := [Metric.num "today_sales" 0, Metric.num "today_transactions" 0,
                    Metric.str "day_of_week" (dayName d)]
        ml_model := none } := by
  have hb : branchFilter none rows = rows := rfl
  simp only [calculate_daily_sales_anomaly, hb, h]
  rfl

/-- Witness for C5: a table with one historical row (day 10) and no rows on
the target day 3. -/
def c5rows : List Txn := [⟨10, "Amoxicillin", 1, 5, 5, none⟩]

/-- Witness for C5 at the concrete table `c5rows` and target day 3. -/
theorem daily_sales_zero_transaction_day_witness :
    rowsOn c5rows 3 = [] ∧
    calculate_daily_sales_anomaly 3 c5rows none =
      { algorithm := "daily_sales_anomaly", risk_score := 0, alert := false
        messages := [Msg.noTransactionsToday], can_analyze := true
        metrics := [Metric.num "today_sales" 0, Metric.num "today_transactions" 0,
                    Metric.str "day_of_week" (dayName 3)]
        ml_model := none } :=
  ⟨by decide, daily_sales_zero_transaction_day 3 c5rows (by decide)⟩

theorem branchFilter_nil (branch : Option String) : branchFilter branch [] = [] := by
  cases branch with
  | none => rfl
  | some b =>
      simp only [branchFilter]
      split_ifs <;> rfl

theorem daily_empty_table (d : Date) (branch : Option String) :
    calculate_daily_sales_anomaly d [] branch =
      { algorithm := "daily_sales_anomaly", risk_score := 0, alert := false
        messages := [Msg.noTransactionsToday], can_analyze := true
        metrics := [Metric.num "today_sales" 0, Metric.num "today_transactions" 0,
                    Metric.str "day_of_week" (dayName d)]
        ml_model := none } := by
  simp only [calculate_daily_sales_anomaly, branchFilter_nil]
  rfl

theorem hv_empty_table (d : Date) (hasUnitPrice : Bool) (manual : Option (List String)) :
    (calculate_high_value_product_anomaly d [] hasUnitPrice manual).can_analyze = false := by
  simp only [calculate_high_value_product_anomaly]
  split_ifs with h1 h2
  · rfl
  · rfl
  · exact absurd rfl h2

theorem ml_empty_table (load : Option MLModel) (train : List (List ℚ) → MLModel)
    (d : Date) : (calculate_ml_anomaly load train d []).can_analyze = false := by
  cases load with
  | none => rfl
  | some m => rfl

/-- Claim C6, counterexample. The claim asserts that invoking the Combiner on
an empty transaction table is a hard failure (no complete Assessment).  In
the code no detector raises on an empty table: each either recovers with
`can_analyze = false` or, for daily sales, returns its zero-transaction early
result, and `calculate_overall_risk` returns a complete benign Assessment —
evaluated here at the concrete date 100 with no persisted model. -/
theorem combiner_empty_table_counterexample :
    (calculate_overall_risk 100 [] none false none none trivialTrain).total_risk_score = 0 ∧
    (calculate_overall_risk 100 [] none false none none trivialTrain).risk_level = "low" ∧
    (calculate_overall_risk 100 [] none false none none trivialTrain).requires_alert = false ∧
    (calculate_overall_risk 100 [] none false none none trivialTrain).algorithms_run = ["daily_sales"] ∧
    (calculate_overall_risk 100 [] none false none none trivialTrain).algorithm_results.length = 5 := by
  decide

/-- Claim C6, amended. For every target date and every configuration (branch
filter, product list, persisted-model state), invoking the Combiner with an
empty transaction table does not fail: it returns a complete Assessment with
`total_risk_score = 0`, `risk_level = "low"`, `requires_alert = false`, and
only the daily-sales detector (which reports a zero-transaction day with
`can_analyze = true`) in `algorithms_run`; the other four detectors recover
locally with `can_analyze = false`. -/
theorem combiner_empty_table_no_failure (d : Date) (branch : Option String)
    (hasUnitPrice : Bool) (hvp : Option (List String))
    (load : Option MLModel) (train : List (List ℚ) → MLModel) :
    (calculate_overall_risk d [] branch hasUnitPrice hvp load train).total_risk_score = 0 ∧
    (calculate_overall_risk d [] branch hasUnitPrice hvp load train).risk_level = "low" ∧
    (calculate_overall_risk d [] branch hasUnitPrice hvp load train).requires_alert = false ∧
    (calculate_overall_risk d [] branch hasUnitPrice hvp load train).algorithms_run = ["daily_sales"] := by
  have h1 := daily_empty_table d branch
  have h2 := hv_empty_table d hasUnitPrice hvp
  have h3 : (calculate_product_mix_anomaly d []).can_analyze = false := rfl
  have h4 : (calculate_weekly_trend_anomaly d []).can_analyze = false := rfl
  have h5 := ml_empty_table load train d
  have htot : totalRiskRaw (detectorResults d [] branch hasUnitPrice hvp load train) = 0 := by
    simp [totalRiskRaw, detectorResults, List.filter_cons, h1, h2, h3, h4, h5]
  have hrun : algorithmsRunOf (detectorResults d [] branch hasUnitPrice hvp load train) =
      ["daily_sales"] := by
    simp [algorithmsRunOf, detectorResults, List.filter_cons, h1, h2, h3, h4, h5]
  refine ⟨?_, ?_, ?_, ?_⟩
  · show min (totalRiskRaw (detectorResults d [] branch hasUnitPrice hvp load train)) 100 = 0
    rw [htot]; decide
  · show riskLevelOf (min (totalRiskRaw (detectorResults d [] branch hasUnitPrice hvp load train)) 100) = "low"
    rw [htot]; decide
  · show decide (40 ≤ min (totalRiskRaw (detectorResults d [] branch hasUnitPrice hvp load train)) 100) = false
    rw [htot]; decide
  · exact hrun

/-- The daily-sales baseline row set exactly as the claim and the code's own
comment describe it: trailing **90** days (`target − 90 ≤ date ≤ target − 1`)
restricted to the target date's weekday — for comparison with the code's
`dailySalesBaselineRows`, whose window starts one day earlier. -/
def dailySalesBaselineRowsClaim (d : Date) (df : List Txn) : List Txn :=
  df.filter (fun t =>
    decide ((d - 90 ≤ t.txnDate ∧ t.txnDate ≤ d - 1) ∧ weekday t.txnDate = weekday d))

/-- Failing input for C4: a row on day 7 = target − 91 (same weekday as the
target, day 98 — both Mondays) plus a row on the target day itself. -/
def c4rows : List Txn :=
  [⟨7, "Paracetamol", 1, 10, 10, none⟩, ⟨98, "Paracetamol", 1, 10, 10, none⟩]

/-- Claim C4, code bug. The claim (and the code's own comment, "last 90 days,
excluding today") describes the baseline window as
`target − 90 ≤ date ≤ target − 1`, but the code computes
`historical_start = (target − 1) − 90 = target − 91`, a 91-day window.  At
target day 98 the row on day 7 = 98 − 91 — which has the same weekday as the
target, 91 being a multiple of 7 — is included in the code's same-weekday
baseline (the detector reports one past Monday of limited history), while the
claimed 90-day window contains no rows at all. -/
theorem daily_baseline_window_off_by_one :
    dailySalesBaselineRows 98 c4rows = [⟨7, "Paracetamol", 1, 10, 10, none⟩] ∧
    dailySalesBaselineRowsClaim 98 c4rows = [] ∧
    weekday 7 = weekday 98 ∧
    (calculate_daily_sales_anomaly 98 c4rows none).messages = [Msg.limitedHistory 1] := by
  decide

/-- Claim C9. The Weekly Trend Detector returns `can_analyze = false` (with
`risk_score = 0`) when the current week (Monday through the target date) has
no transactions, or when fewer than 3 of the prior 4 calendar weeks contain
any transactions. -/
theorem weekly_trend_insufficient_data (d : Date) (rows : List Txn)
    (h : (thisWeekRows d rows).length = 0 ∨ (prevWeeksData d rows).length < 3) :
    (calculate_weekly_trend_anomaly d rows).can_analyze = false ∧
    (calculate_weekly_trend_anomaly d rows).risk_score = 0 := by
  simp only [calculate_weekly_trend_anomaly]
  by_cases hA : (thisWeekRows d rows).length = 0
  · rw [if_pos hA]; exact ⟨rfl, rfl⟩
  · rcases h with h | h
    · exact absurd h hA
    · rw [if_neg hA, if_pos h]; exact ⟨rfl, rfl⟩

/-- Witness table for C9: target day 100 (a Wednesday; its week starts on
Monday, day 98): one transaction in the target week (day 99) and transactions
in exactly 2 of the prior 4 weeks (days 92 and 85). -/
def c9rows : List Txn :=
  [⟨99, "Ibuprofen", 1, 5, 5, none⟩, ⟨92, "Ibuprofen", 1, 10, 10, none⟩,
   ⟨85, "Ibuprofen", 1, 10, 10, none⟩]

/-- Witness for C9: transactions only as in `c9rows` — target week populated,
exactly 2 of the prior 4 weeks populated — yield `can_analyze = false`. -/
theorem weekly_trend_insufficient_data_witness :
    ((thisWeekRows 100 c9rows).length ≠ 0 ∧ (prevWeeksData 100 c9rows).length = 2) ∧
    (calculate_weekly_trend_anomaly 100 c9rows).can_analyze = false ∧
    (calculate_weekly_trend_anomaly 100 c9rows).risk_score = 0 :=
  ⟨by decide, weekly_trend_insufficient_data 100 c9rows (Or.inr (by decide))⟩

theorem hvRiskRaw_stacked_min (c3 c4 : Bool) : min (hvRiskRaw true true c3 c4) 35 = 35 := by
  cases c3 <;> cases c4 <;> decide

/-- Claim C7. Whenever the High-Value Product Detector can analyze (a nonempty
product list and a nonempty 30-day historical window), if today's high-value
quantity is exactly 0 and the historical daily mean quantity is strictly
greater than 2, then both the +25 quantity-ratio penalty and the +20
zero-sale penalty fire (their stacked sum already exceeds the cap, so the
returned score is the cap 35), the alert flag is set, and both corresponding
messages are emitted; the comparison is strict, so a historical mean of
exactly 2 does not trigger the zero-sale penalty. -/
theorem hv_zero_sale_penalty_stacks (d : Date) (rows : List Txn)
    (hasUnitPrice : Bool) (manual : Option (List String))
    (h1 : identify_high_value_products rows hasUnitPrice manual ≠ [])
    (h2 : hvHistWindow d rows (identify_high_value_products rows hasUnitPrice manual) ≠ [])
    (hq : hvTodayQty d rows (identify_high_value_products rows hasUnitPrice manual) = 0)
    (ha : 2 < hvHistAvgQty d rows (identify_high_value_products rows hasUnitPrice manual)) :
    hvQtyRatioCond 0 (hvHistAvgQty d rows (identify_high_value_products rows hasUnitPrice manual)) = true ∧
    hvZeroSaleCond 0 (hvHistAvgQty d rows (identify_high_value_products rows hasUnitPrice manual)) = true ∧
    hvZeroSaleCond 0 2 = false ∧
    (calculate_high_value_product_anomaly d rows hasUnitPrice manual).risk_score = 35 ∧
    (calculate_high_value_product_anomaly d rows hasUnitPrice manual).alert = true ∧
    Msg.hvOnlyUnits 0 ∈ (calculate_high_value_product_anomaly d rows hasUnitPrice manual).messages ∧
    Msg.zeroHighValueSales ∈ (calculate_high_value_product_anomaly d rows hasUnitPrice manual).messages := by
  have hA : (0 : ℚ) < hvHistAvgQty d rows (identify_high_value_products rows hasUnitPrice manual) := by
    linarith
  have hc1 : hvQtyRatioCond 0 (hvHistAvgQty d rows (identify_high_value_products rows hasUnitPrice manual)) = true := by
    unfold hvQtyRatioCond
    rw [decide_eq_true_eq]
    refine ⟨hA, ?_⟩
    rw [zero_div]
    norm_num
  have hc2 : hvZeroSaleCond 0 (hvHistAvgQty d rows (identify_high_value_products rows hasUnitPrice manual)) = true := by
    unfold hvZeroSaleCond
    rw [decide_eq_true_eq]
    exact ⟨hA, rfl, ha⟩
  have h1' : ¬ (identify_high_value_products rows hasUnitPrice manual).length = 0 := by
    simpa [List.length_eq_zero] using h1
  have h2' : ¬ (hvHistWindow d rows (identify_high_value_products rows hasUnitPrice manual)).length = 0 := by
    simpa [List.length_eq_zero] using h2
  have hc0 : hvZeroSaleCond 0 2 = false := by decide
  refine ⟨hc1, hc2, hc0, ?_, ?_, ?_, ?_⟩ <;>
    simp [calculate_high_value_product_anomaly, if_neg h1', if_neg h2', if_neg h1, if_neg h2,
      hq, hc1, hc2, hvRiskRaw_stacked_min]

/-- Witness table for C7: one high-value product ("Lantus") that sold 3 units
on its single historical day (day 20, inside the window of target day 40) and
0 units on the target day. -/
def c7rows : List Txn := [⟨20, "Lantus", 3, 150, 50, none⟩]

/-- Witness for C7 at `c7rows`: historical mean quantity 3 > 2, today 0 —
the stacked penalties drive the score to the 35 cap with an alert. -/
theorem hv_zero_sale_penalty_stacks_witness :
    (hvHistAvgQty 40 c7rows (identify_high_value_products c7rows false (some ["Lantus"])) = 3 ∧
     hvTodayQty 40 c7rows (identify_high_value_products c7rows false (some ["Lantus"])) = 0) ∧
    (calculate_high_value_product_anomaly 40 c7rows false (some ["Lantus"])).risk_score = 35 ∧
    (calculate_high_value_product_anomaly 40 c7rows false (some ["Lantus"])).alert = true ∧
    Msg.zeroHighValueSales ∈ (calculate_high_value_product_anomaly 40 c7rows false (some ["Lantus"])).messages := by
  have hid : identify_high_value_products c7rows false (some ["Lantus"]) = ["Lantus"] := by decide
  have hw : hvHistWindow 40 c7rows ["Lantus"] = [⟨20, "Lantus", 3, 150, 50, none⟩] := by decide
  have ha : hvHistAvgQty 40 c7rows (identify_high_value_products c7rows false (some ["Lantus"])) = 3 := by
    norm_num [hvHistAvgQty, hid, hw, distinctDates, rowsOn, quantitySum, mean,
      List.filter, List.dedup]
  have h := hv_zero_sale_penalty_stacks 40 c7rows false (some ["Lantus"])
    (by decide) (by decide) (by decide) (by rw [ha]; norm_num)
  exact ⟨⟨ha, by decide⟩, h.2.2.2.1, h.2.2.2.2.1, h.2.2.2.2.2.2⟩

/-- Counterexample table for C8: one high-value product ("Lipitor"), one
historical row (day 20), and no high-value sales at all on the target day
40. -/
def c8rows : List Txn := [⟨20, "Lipitor", 3, 150, 50, none⟩]

/-- Claim C8, counterexample. At target day 40 on `c8rows`, 100% ≥ 70% of the
tracked high-value products are entirely unsold today, and the detector can
analyze — yet the +10 unsold-share penalty does **not** fire and no
products-not-sold message is emitted, because the branch is guarded by
`len(today) > 0` and no high-value product sold at all today.  This refutes
the claim's "including the case where none of the high-value products sold
today". -/
theorem hv_unsold_penalty_counterexample :
    ((["Lipitor"] : List String).length : ℚ) * (7/10) ≤
      ((hvNotSoldToday (hvTodayRows 40 c8rows ["Lipitor"]) ["Lipitor"]).length : ℚ) ∧
    identify_high_value_products c8rows false (some ["Lipitor"]) = ["Lipitor"] ∧
    (calculate_high_value_product_anomaly 40 c8rows false (some ["Lipitor"])).can_analyze = true ∧
    hvUnsoldCond (hvTodayRows 40 c8rows ["Lipitor"]) ["Lipitor"] = false ∧
    ∀ n k, Msg.productsNotSold n k ∉
      (calculate_high_value_product_anomaly 40 c8rows false (some ["Lipitor"])).messages := by
  have hm : (calculate_high_value_product_anomaly 40 c8rows false (some ["Lipitor"])).messages =
      [Msg.hvOnlyUnits 0, Msg.hvAvgVsToday 3 0, Msg.zeroHighValueSales, Msg.hvValueDrop 0 150] := by
    norm_num [calculate_high_value_product_anomaly, hvQtyRatioCond, hvZeroSaleCond, hvValueCond,
      hvUnsoldCond, hvTodayQty, hvTodayValue, hvHistAvgQty, hvHistAvgValue, hvTodayRows,
      hvHistWindow, hvNotSoldToday, identify_high_value_products, c8rows, distinctDates, rowsOn,
      quantitySum, amountSum, mean, List.filter, List.dedup, List.dedup_cons_of_not_mem]
  have hlen : (hvNotSoldToday (hvTodayRows 40 c8rows ["Lipitor"]) ["Lipitor"]).length = 1 := by
    decide
  refine ⟨?_, by decide, by decide, by decide, ?_⟩
  · rw [hlen]
    norm_num
  · intro n k
    rw [hm]
    simp

/-- Claim C8, amended. Whenever the High-Value Product Detector can analyze:
if at least one tracked high-value product sold today **and** at least 70% of
the tracked high-value products have no sales today, the +10 unsold-share
penalty fires and its informational message is emitted; if no high-value
product sold today at all, the branch is skipped (no +10, no message); and in
either case the alert flag is computed from the other three penalties only —
the unsold-share branch never sets it. -/
theorem hv_unsold_penalty_requires_today_sale (d : Date) (rows : List Txn)
    (hasUnitPrice : Bool) (manual : Option (List String))
    (h1 : identify_high_value_products rows hasUnitPrice manual ≠ [])
    (h2 : hvHistWindow d rows (identify_high_value_products rows hasUnitPrice manual) ≠ []) :
    (hvTodayRows d rows (identify_high_value_products rows hasUnitPrice manual) ≠ [] →
      ((identify_high_value_products rows hasUnitPrice manual).length : ℚ) * (7/10) ≤
        ((hvNotSoldToday (hvTodayRows d rows (identify_high_value_products rows hasUnitPrice manual))
            (identify_high_value_products rows hasUnitPrice manual)).length : ℚ) →
      hvUnsoldCond (hvTodayRows d rows (identify_high_value_products rows hasUnitPrice manual))
          (identify_high_value_products rows hasUnitPrice manual) = true ∧
      Msg.productsNotSold
          (hvNotSoldToday (hvTodayRows d rows (identify_high_value_products rows hasUnitPrice manual))
            (identify_high_value_products rows hasUnitPrice manual)).length
          (identify_high_value_products rows hasUnitPrice manual).length ∈
        (calculate_high_value_product_anomaly d rows hasUnitPrice manual).messages) ∧
    (hvTodayRows d rows (identify_high_value_products rows hasUnitPrice manual) = [] →
      hvUnsoldCond (hvTodayRows d rows (identify_high_value_products rows hasUnitPrice manual))
          (identify_high_value_products rows hasUnitPrice manual) = false ∧
      ∀ n k, Msg.productsNotSold n k ∉
        (calculate_high_value_product_anomaly d rows hasUnitPrice manual).messages) ∧
    (calculate_high_value_product_anomaly d rows hasUnitPrice manual).alert =
      (hvQtyRatioCond (hvTodayQty d rows (identify_high_value_products rows hasUnitPrice manual))
          (hvHistAvgQty d rows (identify_high_value_products rows hasUnitPrice manual)) ||
        hvZeroSaleCond (hvTodayQty d rows (identify_high_value_products rows hasUnitPrice manual))
          (hvHistAvgQty d rows (identify_high_value_products rows hasUnitPrice manual)) ||
        hvValueCond (hvTodayValue d rows (identify_high_value_products rows hasUnitPrice manual))
          (hvHistAvgValue d rows (identify_high_value_products rows hasUnitPrice manual))) := by
  have h1' : ¬ (identify_high_value_products rows hasUnitPrice manual).length = 0 := by
    simpa [List.length_eq_zero] using h1
  have h2' : ¬ (hvHistWindow d rows (identify_high_value_products rows hasUnitPrice manual)).length = 0 := by
    simpa [List.length_eq_zero] using h2
  refine ⟨?_, ?_, ?_⟩
  · intro hT hshare
    have hU : hvUnsoldCond (hvTodayRows d rows (identify_high_value_products rows hasUnitPrice manual))
        (identify_high_value_products rows hasUnitPrice manual) = true := by
      unfold hvUnsoldCond
      rw [decide_eq_true_eq]
      exact ⟨List.length_pos.mpr hT, hshare⟩
    refine ⟨hU, ?_⟩
    simp [calculate_high_value_product_anomaly, if_neg h1', if_neg h2', if_neg h1, if_neg h2, hU]
  · intro hT
    have hU : hvUnsoldCond (hvTodayRows d rows (identify_high_value_products rows hasUnitPrice manual))
        (identify_high_value_products rows hasUnitPrice manual) = false := by
      unfold hvUnsoldCond
      rw [hT]
      exact decide_eq_false (by simp)
    refine ⟨hU, ?_⟩
    intro n k
    simp only [calculate_high_value_product_anomaly, if_neg h1', if_neg h2', hU]
    split_ifs <;> simp_all
  · simp only [calculate_high_value_product_anomaly, if_neg h1', if_neg h2']

/-- Witness table for C8 (amended): four tracked high-value products, one of
which ("A") sold on the target day 40; the other three (75% ≥ 70%) did not. -/
def c8wrows : List Txn := [⟨20, "A", 1, 60, 60, none⟩, ⟨40, "A", 1, 60, 60, none⟩]

/-- Witness for C8 (amended) at `c8wrows`: the +10 unsold-share penalty fires
(score 10) with its message, while the alert flag stays false. -/
theorem hv_unsold_penalty_requires_today_sale_witness :
    hvTodayRows 40 c8wrows (identify_high_value_products c8wrows false (some ["A", "B", "C", "D"])) ≠ [] ∧
    hvUnsoldCond (hvTodayRows 40 c8wrows (identify_high_value_products c8wrows false (some ["A", "B", "C", "D"])))
      (identify_high_value_products c8wrows false (some ["A", "B", "C", "D"])) = true ∧
    Msg.productsNotSold
        (hvNotSoldToday (hvTodayRows 40 c8wrows (identify_high_value_products c8wrows false (some ["A", "B", "C", "D"])))
          (identify_high_value_products c8wrows false (some ["A", "B", "C", "D"]))).length
        (identify_high_value_products c8wrows false (some ["A", "B", "C", "D"])).length ∈
      (calculate_high_value_product_anomaly 40 c8wrows false (some ["A", "B", "C", "D"])).messages ∧
    (hvNotSoldToday (hvTodayRows 40 c8wrows (identify_high_value_products c8wrows false (some ["A", "B", "C", "D"])))
      (identify_high_value_products c8wrows false (some ["A", "B", "C", "D"]))).length = 3 ∧
    (identify_high_value_products c8wrows false (some ["A", "B", "C", "D"])).length = 4 ∧
    (calculate_high_value_product_anomaly 40 c8wrows false (some ["A", "B", "C", "D"])).alert = false ∧
    (calculate_high_value_product_anomaly 40 c8wrows false (some ["A", "B", "C", "D"])).risk_score = 10 := by
  have e1 : (identify_high_value_products c8wrows false (some ["A", "B", "C", "D"])).length = 4 := by
    decide
  have e2 : (hvNotSoldToday (hvTodayRows 40 c8wrows (identify_high_value_products c8wrows false (some ["A", "B", "C", "D"])))
      (identify_high_value_products c8wrows false (some ["A", "B", "C", "D"]))).length = 3 := by
    decide
  have h := (hv_unsold_penalty_requires_today_sale 40 c8wrows false (some ["A", "B", "C", "D"])
    (by decide) (by decide)).1 (by decide) (by rw [e1, e2]; norm_num)
  have hid : identify_high_value_products c8wrows false (some ["A", "B", "C", "D"]) =
      ["A", "B", "C", "D"] := by decide
  have hw : hvHistWindow 40 c8wrows ["A", "B", "C", "D"] = [⟨20, "A", 1, 60, 60, none⟩] := by decide
  have ht : hvTodayRows 40 c8wrows ["A", "B", "C", "D"] = [⟨40, "A", 1, 60, 60, none⟩] := by decide
  have hns : hvNotSoldToday [(⟨40, "A", 1, 60, 60, none⟩ : Txn)] ["A", "B", "C", "D"] =
      ["B", "C", "D"] := by decide
  have hra : (calculate_high_value_product_anomaly 40 c8wrows false (some ["A", "B", "C", "D"])).risk_score = 10 ∧
      (calculate_high_value_product_anomaly 40 c8wrows false (some ["A", "B", "C", "D"])).alert = false := by
    norm_num [calculate_high_value_product_anomaly, hid, hw, ht, hns, hvQtyRatioCond,
      hvZeroSaleCond, hvValueCond, hvUnsoldCond, hvTodayQty, hvTodayValue, hvHistAvgQty,
      hvHistAvgValue, hvRiskRaw, distinctDates, rowsOn, quantitySum, amountSum, mean,
      List.filter, List.dedup, List.dedup_cons_of_not_mem]
  exact ⟨by decide, h.1, h.2, e2, e1, hra.2, hra.1⟩

end PharmGuard